import Mathlib

/-!
Shallow embedding of the core of the `solana-trading-sdk` repository:
the fee/tip policy and multi-provider broadcast engine
(`src/common/trading_endpoint.rs`), the generic batch trading loops
(`src/dex/dex_traits.rs`), the tip-account chunking of provider runtimes
(`src/swqos/mod.rs`), the `PriorityFee` combination
(`src/instruction/builder.rs`) and the lazily-initialized Pumpfun venue
state (`src/dex/pumpfun.rs`).

Machine integers (`u64`, `u32`) are embedded as `Nat`; saturation and
truncation are made explicit where the source performs them.  External
collaborators (cryptographic signing, PDA derivation, the network) enter
as explicit function parameters or as recorded outcomes, never as
effects.
-/

namespace SolanaTradingSdk

/-- `PriorityFee` from `src/instruction/builder.rs`: compute-budget unit
limit (`u32` in the source) and per-unit price (`u64`). -/
structure PriorityFee where
  unit_limit : Nat
  unit_price : Nat
deriving DecidableEq, Repr

/-- `u32::MAX`, the saturation bound of `unit_limit`. -/
def u32Max : Nat := 2 ^ 32 - 1

/-- `impl Add for PriorityFee` (`src/instruction/builder.rs` lines 30-39):
`unit_limit` is combined with `u32::saturating_add`, `unit_price` with
`max`. -/
def PriorityFee.add (a b : PriorityFee) : PriorityFee :=
  { unit_limit := min (a.unit_limit + b.unit_limit) u32Max
    unit_price := max a.unit_price b.unit_price }

/-- `TipFee` from `src/instruction/builder.rs`: tip destination account
(pubkeys are embedded as `Nat`) and tip amount in lamports. -/
structure TipFee where
  tip_account : Nat
  tip_lamports : Nat
deriving DecidableEq, Repr

/-- `TransactionType` from `src/common/trading_endpoint.rs`. -/
inductive TransactionType where
  | Buy
  | Sell
  | Create
deriving DecidableEq, Repr

/-- `TradingEndpointError` variants used by `trading_endpoint.rs`
(the `errors` module is not under `src/`; the two constructors used by
the embedded code are reproduced). -/
inductive TradingEndpointError where
  | TransactionError (msg : String)
  | CustomError (msg : String)
deriving DecidableEq, Repr

/-- Fee/tip slice of `SWQoSConfig` from `src/swqos/mod.rs` (tips are
`Lamports`, i.e. `u64`, embedded as `Nat`). -/
structure SWQoSConfig where
  threads : Nat
  buy_tip : Option Nat
  buy_fee : Option PriorityFee
  sell_tip : Option Nat
  sell_fee : Option PriorityFee
deriving DecidableEq, Repr

instance {α β : Type} [DecidableEq α] [DecidableEq β] : DecidableEq (Except α β) := fun x y =>
  match x, y with
  | .error a, .error b =>
      if h : a = b then isTrue (by rw [h]) else isFalse (by intro hh; cases hh; exact h rfl)
  | .ok a, .ok b =>
      if h : a = b then isTrue (by rw [h]) else isFalse (by intro hh; cases hh; exact h rfl)
  | .error _, .ok _ => isFalse (by intro hh; cases hh)
  | .ok _, .error _ => isFalse (by intro hh; cases hh)

/-- `SWQoSRuntime` from `src/swqos/mod.rs`: a provider configuration plus
the observable behaviour of its client for one call — the tip account it
reports (`client.get_tip_account()`), its name (`client.get_name()`), and
the outcome the network returned for this call's `send_transaction` /
`send_transactions` submission (the network is an external collaborator,
so its response is data of the embedding). -/
structure SWQoSRuntime where
  config : SWQoSConfig
  tipAccount : Option Nat
  name : String
  sendResult : Except String Unit
  sendBatchResult : Except String Unit
deriving DecidableEq, Repr

/-- `get_default_tip_for_tx_type` (`trading_endpoint.rs` lines 64-78):
Buy and Create use `buy_tip`, Sell uses `sell_tip.or(buy_tip)`; a missing
tip is a `TransactionError`. -/
def get_default_tip_for_tx_type (swqos : SWQoSRuntime) (tx_type : TransactionType) :
    Except TradingEndpointError Nat :=
  let tip := match tx_type with
    | .Buy => swqos.config.buy_tip
    | .Sell => swqos.config.sell_tip <|> swqos.config.buy_tip
    | .Create => swqos.config.buy_tip
  match tip with
  | some v => .ok v
  | none => .error (.TransactionError
      ("No tip configured for transaction type in SWQoS: " ++ swqos.name))

/-- `get_fee_config` (`trading_endpoint.rs` lines 81-94): Buy and Create
use `buy_fee`, Sell uses `sell_fee.or(buy_fee)`; an additional fee is
merged with `PriorityFee::add`. -/
def get_fee_config (swqos : SWQoSRuntime) (tx_type : TransactionType)
    (additional_fee : Option PriorityFee) : Option PriorityFee :=
  let base_fee := match tx_type with
    | .Buy => swqos.config.buy_fee
    | .Sell => swqos.config.sell_fee <|> swqos.config.buy_fee
    | .Create => swqos.config.buy_fee
  match base_fee, additional_fee with
  | some base, some additional => some (base.add additional)
  | some base, none => some base
  | none, some additional => some additional
  | none, none => none

/-- `get_tip_config` (`trading_endpoint.rs` lines 52-61): a provider with
no tip account yields `Ok(None)`; otherwise the resolved default tip plus
the additional tip goes to the provider's tip account, and a failing tip
resolution propagates as an error. -/
def get_tip_config (swqos : SWQoSRuntime) (tx_type : TransactionType)
    (additional_tip : Nat) : Except TradingEndpointError (Option TipFee) :=
  match swqos.tipAccount with
  | none => .ok none
  | some account => do
      let tip ← get_default_tip_for_tx_type swqos tx_type
      .ok (some { tip_account := account, tip_lamports := tip + additional_tip })

/-- The instruction kinds that `trading_endpoint.rs` itself assembles:
compute-budget price and limit instructions, a system transfer (the tip
instruction), a nonce-advance instruction, and opaque venue instructions
supplied by the caller (their payload is irrelevant to the endpoint and
carried as a tag). -/
inductive Instr where
  | setComputeUnitPrice (price : Nat)
  | setComputeUnitLimit (limit : Nat)
  | transfer (source dest lamports : Nat)
  | venue (tag : Nat)
deriving DecidableEq, Repr

/-- A signed transaction (`src/common/transaction.rs` wraps a legacy or a
versioned Solana transaction; both expose `signatures`).  Signing is an
external capability, so the builders below take the signature function as
a parameter. -/
structure Tx where
  payer : Nat
  instructions : List Instr
  blockhash : Nat
  signatures : List Nat
deriving DecidableEq, Repr

/-- A signing function: payer, instruction list and blockhash determine
the payer's signature deterministically (`src/instruction/builder.rs`
signs with the payer; the signature is a pure function of the message). -/
def SignFn : Type := Nat → List Instr → Nat → Nat

/-- `build_legacy_transaction` / `build_transaction`
(`src/instruction/builder.rs`): assemble the instruction list into a
transaction signed by the payer; the payer's signature occupies the first
signature slot. -/
def build_transaction (sign : SignFn) (payer : Nat) (instructions : List Instr)
    (blockhash : Nat) : Tx :=
  { payer := payer
    instructions := instructions
    blockhash := blockhash
    signatures := [sign payer instructions blockhash] }

/-- `build_fee_instructions` (`trading_endpoint.rs` lines 97-106): a
resolved fee becomes a compute-unit-price and a compute-unit-limit
instruction; no resolved fee, no instructions. -/
def build_fee_instructions (swqos : SWQoSRuntime) (tx_type : TransactionType)
    (custom_fee : Option PriorityFee) : List Instr :=
  match get_fee_config swqos tx_type custom_fee with
  | some fee => [.setComputeUnitPrice fee.unit_price, .setComputeUnitLimit fee.unit_limit]
  | none => []

/-- `build_tip_instruction` (`trading_endpoint.rs` lines 109-111): a
resolved tip becomes a system transfer from the payer to the tip
account. -/
def build_tip_instruction (payer : Nat) (tip_config : Option TipFee) : Option Instr :=
  tip_config.map (fun tip => .transfer payer tip.tip_account tip.tip_lamports)

/-- `Option.toList`-style helper mirroring `if let Some(ix) = ... push`. -/
def optionalIx : Option Instr → List Instr
  | some ix => [ix]
  | none => []

/-- Sequential fail-fast collection (`collect::<Result<Vec<_>, _>>()` /
a for-loop with `?` on each element). -/
def mapME {α β : Type} (f : α → Except TradingEndpointError β) :
    List α → Except TradingEndpointError (List β)
  | [] => .ok []
  | x :: xs => do
      let y ← f x
      let ys ← mapME f xs
      .ok (y :: ys)

/-- One iteration of the per-provider build loop of
`build_and_broadcast_tx` (`trading_endpoint.rs` lines 127-166): nonce
instruction, then fee instructions, then the tip instruction when one is
configured, then the caller's instructions; the blockhash cycles through
the supplied list by provider index; the result is the signed
transaction. -/
def buildProviderTx (sign : SignFn) (tx_type : TransactionType) (payer : Nat)
    (instructions : List Instr) (nonce_ix : Option Instr) (blockhashes : List Nat)
    (additional_fee : Option PriorityFee) (additional_tip : Nat)
    (index : Nat) (swqos : SWQoSRuntime) : Except TradingEndpointError Tx := do
  let fee_instructions := build_fee_instructions swqos tx_type additional_fee
  let tip_config ← get_tip_config swqos tx_type additional_tip
  let transaction_instructions :=
    optionalIx nonce_ix ++ fee_instructions
      ++ optionalIx (build_tip_instruction payer tip_config) ++ instructions
  let blockhash := blockhashes.getD (index % blockhashes.length) 0
  .ok (build_transaction sign payer transaction_instructions blockhash)

/-- The debug rendering of the collected error vector inside
`format!("... {:?}", errors)`. -/
def formatErrorList (errors : List String) : String :=
  "[" ++ String.intercalate ", " errors ++ "]"

/-- `results.into_iter().filter_map(Result::err)` over the awaited
per-provider outcomes. -/
def failingErrors (results : List (Except String Unit)) : List String :=
  results.filterMap (fun r => match r with | .error e => some e | .ok _ => none)

/-- The sequential, fail-fast per-provider build loop of
`build_and_broadcast_tx` (`for (index, swqos) in self.swqos.iter()
.enumerate()` with `?` on each build), starting at a given index. -/
def buildAllTxsFrom (sign : SignFn) (tx_type : TransactionType) (payer : Nat)
    (instructions : List Instr) (nonce_ix : Option Instr) (blockhashes : List Nat)
    (additional_fee : Option PriorityFee) (additional_tip : Nat) (index : Nat) :
    List SWQoSRuntime → Except TradingEndpointError (List Tx)
  | [] => .ok []
  | swqos :: rest => do
      let tx ← buildProviderTx sign tx_type payer instructions nonce_ix blockhashes
        additional_fee additional_tip index swqos
      let txs ← buildAllTxsFrom sign tx_type payer instructions nonce_ix blockhashes
        additional_fee additional_tip (index + 1) rest
      .ok (tx :: txs)

/-- The whole build loop of `build_and_broadcast_tx`, from index 0. -/
def buildAllTxs (sign : SignFn) (tx_type : TransactionType) (payer : Nat)
    (instructions : List Instr) (nonce_ix : Option Instr) (blockhashes : List Nat)
    (additional_fee : Option PriorityFee) (additional_tip : Nat)
    (providers : List SWQoSRuntime) : Except TradingEndpointError (List Tx) :=
  buildAllTxsFrom sign tx_type payer instructions nonce_ix blockhashes
    additional_fee additional_tip 0 providers

/-- `build_and_broadcast_tx` (`trading_endpoint.rs` lines 113-186): build
one signed transaction per provider (collecting each signature from the
first signature slot), then submit all concurrently; all outcomes are
awaited, errors are collected, and a non-empty error set becomes one
aggregate `CustomError` while an empty one returns every signature. -/
def build_and_broadcast_tx (sign : SignFn) (tx_type : TransactionType) (payer : Nat)
    (instructions : List Instr) (nonce_ix : Option Instr) (blockhashes : List Nat)
    (additional_fee : Option PriorityFee) (additional_tip : Nat)
    (providers : List SWQoSRuntime) : Except TradingEndpointError (List Nat) := do
  let txs ← buildAllTxs sign tx_type payer instructions nonce_ix blockhashes
    additional_fee additional_tip providers
  let signatures := txs.map (fun tx => tx.signatures.getD 0 0)
  let results := providers.map (fun swqos => swqos.sendResult)
  let errors := failingErrors results
  if errors.isEmpty then
    .ok signatures
  else
    .error (.CustomError
      ("Errors occurred while sending transactions: " ++ formatErrorList errors))

/-- `BatchTxItem` from `trading_endpoint.rs`. -/
structure BatchTxItem where
  payer : Nat
  instructions : List Instr
deriving DecidableEq, Repr

/-- The per-provider body of `build_and_broadcast_batch_txs`
(`trading_endpoint.rs` lines 199-230): resolve the provider's tip and fee
once, then build one signed transaction per batch item (fee instructions,
tip transfer from the item's payer when configured, then the item's
instructions, all against the shared blockhash). -/
def batchProviderTxs (sign : SignFn) (tx_type : TransactionType)
    (items : List BatchTxItem) (blockhash : Nat) (custom_fee : Option PriorityFee)
    (custom_tip : Nat) (swqos : SWQoSRuntime) : Except TradingEndpointError (List Tx) := do
  let tip_config ← get_tip_config swqos tx_type custom_tip
  let fee_instructions := build_fee_instructions swqos tx_type custom_fee
  .ok (items.map (fun item =>
    let transaction_instructions :=
      fee_instructions ++ optionalIx (build_tip_instruction item.payer tip_config)
        ++ item.instructions
    build_transaction sign item.payer transaction_instructions blockhash))

/-- `build_and_broadcast_batch_txs` (`trading_endpoint.rs` lines
188-243): for each provider in configuration order build this provider's
per-item transactions, extend the signature list with their first
signature slots, and queue the submission; all submissions are then
awaited together, and collected errors become one aggregate
`CustomError` while full success returns the signatures. -/
def build_and_broadcast_batch_txs (sign : SignFn) (tx_type : TransactionType)
    (items : List BatchTxItem) (blockhash : Nat) (custom_fee : Option PriorityFee)
    (custom_tip : Nat) (providers : List SWQoSRuntime) :
    Except TradingEndpointError (List Nat) := do
  let txss ← mapME (batchProviderTxs sign tx_type items blockhash custom_fee custom_tip) providers
  let signatures := (txss.map (fun txs => txs.map (fun tx => tx.signatures.getD 0 0))).flatten
  let results := providers.map (fun swqos => swqos.sendBatchResult)
  let errors := failingErrors results
  if errors.isEmpty then
    .ok signatures
  else
    .error (.CustomError
      ("Errors occurred while sending batch transactions: " ++ formatErrorList errors))

/-- Modelled from the spec: `src/dex/amm_calc.rs` is not present in the
source tree; the spec defines `swap_out(reserve_in, reserve_out,
amount_in) = amount_in * reserve_out / (reserve_in + amount_in)` with
integer arithmetic and 128-bit intermediates (exact over `Nat`).  Buy
direction: SOL in, token out; called as
`amm_buy_get_token_out(sol_reserves, token_reserves, sol_in)`. -/
def amm_buy_get_token_out (sol_reserves token_reserves sol_in : Nat) : Nat :=
  sol_in * token_reserves / (sol_reserves + sol_in)

/-- Modelled from the spec: sell direction of `swap_out` — token in, SOL
out; called as `amm_sell_get_sol_out(sol_reserves, token_reserves,
token_in)`. -/
def amm_sell_get_sol_out (sol_reserves token_reserves token_in : Nat) : Nat :=
  token_in * sol_reserves / (token_reserves + token_in)

/-- Modelled from the spec: `with_slippage_buy(amount, bps) = amount +
amount*bps/10000`, rounding the slippage term up. -/
def calculate_with_slippage_buy (amount bps : Nat) : Nat :=
  amount + (amount * bps + 9999) / 10000

/-- Modelled from the spec: `with_slippage_sell(amount, bps) = amount -
amount*bps/10000`, rounding down and flooring at zero (`Nat` subtraction
floors at zero as specified for `bps > 10000`). -/
def calculate_with_slippage_sell (amount bps : Nat) : Nat :=
  amount - amount * bps / 10000

/-- `SwapInfo` (`src/dex/types.rs`, declared in the spec data model): the
two legs of one swap. -/
structure SwapInfo where
  token_amount : Nat
  sol_amount : Nat
deriving DecidableEq, Repr

/-- `BatchBuyParam`: per-item payer and SOL amount of a batch buy. -/
structure BatchBuyParam where
  payer : Nat
  sol_amount : Nat
deriving DecidableEq, Repr

/-- `BatchSellParam`: per-item payer and token amount of a batch sell. -/
structure BatchSellParam where
  payer : Nat
  token_amount : Nat
deriving DecidableEq, Repr

/-- One iteration of the `batch_buy` loop (`src/dex/dex_traits.rs` lines
198-221) on the running local reserve copy `(pool_sol, pool_token)`:
price the item's token output against the running copy, build its
`SwapInfo` (token leg: the bought amount; sol leg: the slippage-capped
SOL input), then update `pool_sol += item.sol_amount; pool_token -=
bought`.  Returns the built `SwapInfo`, the bought amount, and the next
state. -/
def batchBuyStep (slippage_bps : Nat) (st : Nat × Nat) (item : BatchBuyParam) :
    SwapInfo × Nat × (Nat × Nat) :=
  let sol_lamports_with_slippage := calculate_with_slippage_buy item.sol_amount slippage_bps
  let buy_token_amount := amm_buy_get_token_out st.1 st.2 item.sol_amount
  (⟨buy_token_amount, sol_lamports_with_slippage⟩, buy_token_amount,
    (st.1 + item.sol_amount, st.2 - buy_token_amount))

/-- The `batch_buy` simulation loop in caller-supplied item order:
returns the per-item `SwapInfo`s, the per-item bought amounts, and the
final running reserve state. -/
def batchBuyRun (slippage_bps : Nat) (st : Nat × Nat) :
    List BatchBuyParam → List SwapInfo × List Nat × (Nat × Nat)
  | [] => ([], [], st)
  | item :: rest =>
      let step := batchBuyStep slippage_bps st item
      let tail := batchBuyRun slippage_bps step.2.2 rest
      (step.1 :: tail.1, step.2.1 :: tail.2.1, tail.2.2)

/-- One iteration of the `batch_sell` loop (`src/dex/dex_traits.rs` lines
243-269): compute the SOL output of the item's token amount against the
running copy, floor it by slippage, and build the `SwapInfo` passed to
`build_sell_instruction` exactly as the source does — `token_amount:
sol_amount, sol_amount: sol_lamports_with_slippage` — then update
`pool_sol -= sol_amount; pool_token += item.token_amount`. -/
def batchSellStep (slippage_bps : Nat) (st : Nat × Nat) (item : BatchSellParam) :
    SwapInfo × (Nat × Nat) :=
  let sol_amount := amm_sell_get_sol_out st.1 st.2 item.token_amount
  let sol_lamports_with_slippage := calculate_with_slippage_sell sol_amount slippage_bps
  (⟨sol_amount, sol_lamports_with_slippage⟩,
    (st.1 - sol_amount, st.2 + item.token_amount))

/-- The `batch_sell` simulation loop: the `SwapInfo` handed to the venue
for each item, in item order. -/
def batchSellRun (slippage_bps : Nat) (st : Nat × Nat) :
    List BatchSellParam → List SwapInfo
  | [] => []
  | item :: rest =>
      let step := batchSellStep slippage_bps st item
      step.1 :: batchSellRun slippage_bps step.2 rest

/-- The `SwapInfo` that the single-item sell flow `sell_immediately`
(`src/dex/dex_traits.rs` line 162) hands to `build_sell_instruction`:
token leg is the token amount sold, sol leg the slippage-floored SOL
output. -/
def sell_immediately_swapinfo (token_amount sol_amount : Nat) : SwapInfo :=
  ⟨token_amount, sol_amount⟩

/-- Rust's `slice::chunks(k)`, fuel-indexed for structural recursion:
contiguous chunks of `k` elements, the last possibly shorter.  With fuel
at least the list length the fuel never runs out. -/
def chunksOfFuel (k : Nat) : Nat → List Nat → List (List Nat)
  | 0, _ => []
  | _ + 1, [] => []
  | fuel + 1, x :: xs =>
      if k = 0 then []
      else (x :: xs).take k :: chunksOfFuel k fuel ((x :: xs).drop k)

/-- Rust's `slice::chunks(k)` on a list.  (`chunks(0)` panics in Rust;
the embedding returns `[]` for `k = 0`, a case the source never reaches
because chunk sizes are computed from non-empty pools.) -/
def chunksOf (k : Nat) (l : List Nat) : List (List Nat) :=
  chunksOfFuel k l.length l

/-- `chunk_accounts` (`src/swqos/mod.rs` lines 220-224): clamp the thread
count to `[1, pool_size]`, compute the ceiling chunk size `(len + t - 1)
/ t`, and split the pool with `chunks`. -/
def chunk_accounts (accounts : List Nat) (threads : Nat) : List (List Nat) :=
  let t := max (min threads accounts.length) 1
  let chunk_size := (accounts.length + t - 1) / t
  chunksOf chunk_size accounts

/-- `instantiate_many` (`src/swqos/mod.rs` lines 218-303) for the
tip-pooled provider kinds: after clamping the configured degree with
`threads.max(1)`, each chunk of the provider's tip-account pool becomes
one runtime client holding exactly that chunk; the returned list is the
per-client tip pool list. -/
def instantiate_many_pools (pool : List Nat) (threads : Nat) : List (List Nat) :=
  chunk_accounts pool (max threads 1)

/-- `GlobalAccount` (`src/dex/pumpfun_types.rs`), the Pumpfun global
state fetched once by `initialize`. -/
structure GlobalAccount where
  discriminator : Nat
  initialized : Bool
  authority : Nat
  fee_recipient : Nat
  initial_virtual_token_reserves : Nat
  initial_virtual_sol_reserves : Nat
  initial_real_token_reserves : Nat
  token_total_supply : Nat
  fee_basis_points : Nat
deriving DecidableEq, Repr

/-- The Pumpfun venue's lazily-initialized state: the content of the
`OnceCell<Arc<GlobalAccount>>` (`src/dex/pumpfun.rs` line 22), `none`
before `initialize` completes. -/
def PumpfunState : Type := Option GlobalAccount

/-- `Pumpfun::initialize` (`src/dex/pumpfun.rs` lines 27-36): the fetched
and deserialized global account (an external collaborator's outcome,
passed as data) is stored in the cell; `OnceCell::set` rejects a second
initialization. -/
def pumpfunInitialize (st : PumpfunState) (fetched : Except String GlobalAccount) :
    Except TradingEndpointError PumpfunState :=
  match fetched with
  | .error e => .error (.CustomError e)
  | .ok ga =>
      match st with
      | some _ => .error (.CustomError "OnceCell already set")
      | none => .ok (some ga)

/-- `Pumpfun::initialized` (`src/dex/pumpfun.rs` lines 38-43). -/
def pumpfunInitialized (st : PumpfunState) : Except TradingEndpointError Unit :=
  match st with
  | none => .error (.CustomError "Pumpfun not initialized")
  | some _ => .ok ()

/-- A Pumpfun program instruction: program id, serialized data bytes,
and account metas `(pubkey, is_signer, is_writable)`.  Serialization of
the buy/sell payload and PDA derivation are external collaborators
(borsh, ed25519 curve math) passed as function parameters. -/
structure PInstruction where
  program : Nat
  data : List Nat
  accounts : List (Nat × Bool × Bool)
deriving DecidableEq, Repr

/-- The derivation/encoding collaborators `build_buy_instruction` and
`build_sell_instruction` use: payload encoders and PDA derivations
(`get_bonding_curve_pda` and friends return errors when derivation
fails, embedded as `Option`). -/
structure PumpfunEnv where
  programId : Nat
  globalAccount : Nat
  feeRecipient : Nat
  eventAuthority : Nat
  encodeBuy : SwapInfo → List Nat
  encodeSell : SwapInfo → List Nat
  bondingCurvePda : Nat → Option Nat
  ata : Nat → Nat → Nat
  globalVolumePda : Option Nat
  userVolumePda : Nat → Option Nat

/-- Lift a PDA derivation's `Option` result to the source's
`ok_or_else(...)` error. -/
def pdaOrError (o : Option Nat) (msg : String) : Except TradingEndpointError Nat :=
  match o with
  | some p => .ok p
  | none => .error (.CustomError msg)

/-- `Pumpfun::build_buy_instruction` (`src/dex/pumpfun.rs` lines
140-177): fails with the "not initialized" error before doing anything
else when `initialize` has not completed; otherwise encodes the buy and
assembles the instruction with the source's account meta list. -/
def pumpfun_build_buy_instruction (env : PumpfunEnv) (st : PumpfunState)
    (payer mint : Nat) (creator_vault : Option Nat) (token_account : Nat)
    (buy : SwapInfo) : Except TradingEndpointError PInstruction := do
  pumpfunInitialized st
  let buffer := env.encodeBuy buy
  let bonding_curve ← pdaOrError (env.bondingCurvePda mint) "Failed to find bonding curve PDA"
  let vault ← match creator_vault with
    | some v => Except.ok v
    | none => Except.error (.CustomError "Creator vault not provided")
  let gvol ← pdaOrError env.globalVolumePda "Failed to find global volume accumulator PDA"
  let uvol ← pdaOrError (env.userVolumePda payer) "Failed to find user volume accumulator PDA"
  .ok { program := env.programId
        data := buffer
        accounts :=
          [(env.globalAccount, false, false), (env.feeRecipient, false, true),
           (mint, false, false), (bonding_curve, false, true),
           (env.ata bonding_curve mint, false, true), (token_account, false, true),
           (payer, true, true), (0, false, false), (1, false, false),
           (vault, false, true), (env.eventAuthority, false, false),
           (env.programId, false, false), (gvol, false, true), (uvol, false, true)] }

/-- `Pumpfun::build_sell_instruction` (`src/dex/pumpfun.rs` lines
179-221): likewise guarded by the "not initialized" check before any
work; the token account defaults to the payer's associated token account
when no custom one is supplied. -/
def pumpfun_build_sell_instruction (env : PumpfunEnv) (st : PumpfunState)
    (payer mint : Nat) (custom_ata : Option Nat) (creator_vault : Option Nat)
    (sell : SwapInfo) : Except TradingEndpointError PInstruction := do
  pumpfunInitialized st
  let buffer := env.encodeSell sell
  let bonding_curve ← pdaOrError (env.bondingCurvePda mint) "Failed to find bonding curve PDA"
  let ata := match custom_ata with
    | none => env.ata payer mint
    | some t => t
  let vault ← match creator_vault with
    | some v => Except.ok v
    | none => Except.error (.CustomError "Creator vault not provided")
  let gvol ← pdaOrError env.globalVolumePda "Failed to find global volume accumulator PDA"
  let uvol ← pdaOrError (env.userVolumePda payer) "Failed to find user volume accumulator PDA"
  .ok { program := env.programId
        data := buffer
        accounts :=
          [(env.globalAccount, false, false), (env.feeRecipient, false, true),
           (mint, false, false), (bonding_curve, false, true),
           (env.ata bonding_curve mint, false, true), (ata, false, true),
           (payer, true, true), (0, false, false), (vault, false, true),
           (1, false, false), (env.eventAuthority, false, false),
           (env.programId, false, false), (gvol, false, true), (uvol, false, true)] }

/-! ## Helper lemmas -/

/-- The constant-product buy output never exceeds the token reserves:
`s * t / (r + s) ≤ t`. -/
theorem amm_buy_le_token_reserves (r t s : Nat) : amm_buy_get_token_out r t s ≤ t := by
  unfold amm_buy_get_token_out
  rcases Nat.eq_zero_or_pos (r + s) with h | h
  · have hs : s = 0 := by omega
    simp [hs]
  · calc s * t / (r + s) ≤ (r + s) * t / (r + s) :=
          Nat.div_le_div_right (Nat.mul_le_mul_right t (Nat.le_add_left s r))
    _ = t := Nat.mul_div_cancel_left t h

/-- Running-reserve invariant of the `batch_buy` loop: the final
`pool_token` is the initial token reserve minus the sum of the per-item
bought amounts, and that sum never exceeds the initial reserve (so the
`u64` subtraction in the source never underflows). -/
theorem batchBuyRun_token_invariant (bps : Nat) :
    ∀ (items : List BatchBuyParam) (st : Nat × Nat),
      (batchBuyRun bps st items).2.2.2 = st.2 - ((batchBuyRun bps st items).2.1).sum ∧
      ((batchBuyRun bps st items).2.1).sum ≤ st.2 := by
  intro items
  induction items with
  | nil => intro st; simp [batchBuyRun]
  | cons item rest ih =>
      intro st
      have hb := amm_buy_le_token_reserves st.1 st.2 item.sol_amount
      have ihs := ih (st.1 + item.sol_amount,
        st.2 - amm_buy_get_token_out st.1 st.2 item.sol_amount)
      simp only [batchBuyRun, batchBuyStep, List.sum_cons] at ihs ⊢
      omega

/-- With enough fuel, the chunks concatenate back to the original list:
`chunks` partitions its input. -/
theorem chunksOfFuel_flatten (k : Nat) (hk : k ≠ 0) :
    ∀ (fuel : Nat) (l : List Nat), l.length ≤ fuel →
      (chunksOfFuel k fuel l).flatten = l := by
  intro fuel
  induction fuel with
  | zero =>
      intro l hl
      have hnil : l = [] := List.eq_nil_of_length_eq_zero (Nat.le_zero.mp hl)
      subst hnil; rfl
  | succ n ih =>
      intro l hl
      match l with
      | [] => rfl
      | x :: xs =>
          have hdrop : ((x :: xs).drop k).length ≤ n := by
            simp only [List.length_drop, List.length_cons] at hl ⊢
            omega
          simp only [chunksOfFuel, if_neg hk, List.flatten_cons, ih _ hdrop]
          exact List.take_append_drop k (x :: xs)

/-- With enough fuel, the number of chunks is `ceil(len / k)`. -/
theorem chunksOfFuel_length (k : Nat) (hk : k ≠ 0) :
    ∀ (fuel : Nat) (l : List Nat), l.length ≤ fuel →
      (chunksOfFuel k fuel l).length = (l.length + k - 1) / k := by
  intro fuel
  induction fuel with
  | zero =>
      intro l hl
      have hnil : l = [] := List.eq_nil_of_length_eq_zero (Nat.le_zero.mp hl)
      subst hnil
      simp [chunksOfFuel, Nat.div_eq_of_lt (by omega : k - 1 < k)]
  | succ n ih =>
      intro l hl
      match l with
      | [] => simp [chunksOfFuel, Nat.div_eq_of_lt (by omega : k - 1 < k)]
      | x :: xs =>
          have hdrop : ((x :: xs).drop k).length ≤ n := by
            simp only [List.length_drop, List.length_cons] at hl ⊢
            omega
          simp only [chunksOfFuel, if_neg hk, List.length_cons,
            ih _ hdrop, List.length_drop]
          rcases Nat.lt_or_ge (xs.length + 1) k with hlt | hge
          · have h0 : xs.length + 1 - k = 0 := by omega
            rw [h0, Nat.div_eq_of_lt (by omega : 0 + k - 1 < k),
              Nat.div_eq_of_lt_le (by omega : 1 * k ≤ xs.length + 1 + k - 1)
                (by omega : xs.length + 1 + k - 1 < (1 + 1) * k)]
          · have h1 : xs.length + 1 - k + k - 1 = xs.length := by omega
            have h2 : xs.length + 1 + k - 1 = xs.length + k := by omega
            rw [h1, h2, Nat.add_div_right _ (by omega : 0 < k)]

/-- Every chunk is non-empty and at most `k` long. -/
theorem chunksOfFuel_sizes (k : Nat) (hk : k ≠ 0) :
    ∀ (fuel : Nat) (l : List Nat), l.length ≤ fuel →
      ∀ c ∈ chunksOfFuel k fuel l, c ≠ [] ∧ c.length ≤ k := by
  intro fuel
  induction fuel with
  | zero =>
      intro l hl
      have hnil : l = [] := List.eq_nil_of_length_eq_zero (Nat.le_zero.mp hl)
      subst hnil; intro c hc; cases hc
  | succ n ih =>
      intro l hl
      match l with
      | [] => intro c hc; cases hc
      | x :: xs =>
          have hdrop : ((x :: xs).drop k).length ≤ n := by
            simp only [List.length_drop, List.length_cons] at hl ⊢
            omega
          intro c hc
          simp only [chunksOfFuel, if_neg hk, List.mem_cons] at hc
          rcases hc with hc | hc
          · subst hc
            constructor
            · have : ((x :: xs).take k).length = min k (x :: xs).length := by
                simp [List.length_take]
              intro habs
              rw [habs] at this
              simp at this
              omega
            · simp [List.length_take]
          · exact ih _ hdrop c hc

/-- Replace every provider's recorded single-send outcome: the build
phase never reads it, so builds are invariant under this map. -/
def withSends (f : SWQoSRuntime → Except String Unit) (providers : List SWQoSRuntime) :
    List SWQoSRuntime :=
  providers.map (fun sw => { sw with sendResult := f sw })

/-- Replace every provider's recorded batch-send outcome. -/
def withBatchSends (f : SWQoSRuntime → Except String Unit) (providers : List SWQoSRuntime) :
    List SWQoSRuntime :=
  providers.map (fun sw => { sw with sendBatchResult := f sw })

theorem mapME_ok_length {α β : Type} (f : α → Except TradingEndpointError β) :
    ∀ (l : List α) (ys : List β), mapME f l = .ok ys → ys.length = l.length := by
  intro l
  induction l with
  | nil =>
      intro ys h
      simp only [mapME] at h
      cases h
      rfl
  | cons x xs ih =>
      intro ys h
      simp only [mapME] at h
      cases hfx : f x with
      | error e => rw [hfx] at h; simp [Bind.bind, Except.bind] at h
      | ok y =>
          rw [hfx] at h
          cases hxs : mapME f xs with
          | error e => rw [hxs] at h; simp [Bind.bind, Except.bind] at h
          | ok ys2 =>
              rw [hxs] at h
              simp only [Bind.bind, Except.bind] at h
              cases h
              simp [ih ys2 hxs]

theorem mapME_ok_get {α β : Type} (f : α → Except TradingEndpointError β) :
    ∀ (l : List α) (ys : List β), mapME f l = .ok ys →
      ∀ (i : Nat) (hi : i < l.length) (hi2 : i < ys.length),
        f (l.get ⟨i, hi⟩) = .ok (ys.get ⟨i, hi2⟩) := by
  intro l
  induction l with
  | nil => intro ys h i hi; cases hi
  | cons x xs ih =>
      intro ys h i hi hi2
      simp only [mapME] at h
      cases hfx : f x with
      | error e => rw [hfx] at h; simp [Bind.bind, Except.bind] at h
      | ok y =>
          rw [hfx] at h
          cases hxs : mapME f xs with
          | error e => rw [hxs] at h; simp [Bind.bind, Except.bind] at h
          | ok ys2 =>
              rw [hxs] at h
              simp only [Bind.bind, Except.bind] at h
              cases h
              match i with
              | 0 => simpa using hfx
              | i + 1 =>
                  have hi' : i < xs.length := by simpa using hi
                  have hi2' : i < ys2.length := by simpa using hi2
                  simpa using ih ys2 hxs i hi' hi2'

theorem mapME_invariant {α β : Type} (f : α → Except TradingEndpointError β)
    (g : α → α) (hg : ∀ a, f (g a) = f a) :
    ∀ (l : List α), mapME f (l.map g) = mapME f l := by
  intro l
  induction l with
  | nil => rfl
  | cons x xs ih => simp only [List.map_cons, mapME, hg, ih]

theorem buildAllTxsFrom_ok_length (sign : SignFn) (tx_type : TransactionType) (payer : Nat)
    (instructions : List Instr) (nonce_ix : Option Instr) (blockhashes : List Nat)
    (additional_fee : Option PriorityFee) (additional_tip : Nat) :
    ∀ (providers : List SWQoSRuntime) (index : Nat) (txs : List Tx),
      buildAllTxsFrom sign tx_type payer instructions nonce_ix blockhashes
        additional_fee additional_tip index providers = .ok txs →
      txs.length = providers.length := by
  intro providers
  induction providers with
  | nil =>
      intro index txs h
      simp only [buildAllTxsFrom] at h
      cases h
      rfl
  | cons sw rest ih =>
      intro index txs h
      simp only [buildAllTxsFrom] at h
      cases hb : buildProviderTx sign tx_type payer instructions nonce_ix blockhashes
          additional_fee additional_tip index sw with
      | error e => rw [hb] at h; simp [Bind.bind, Except.bind] at h
      | ok tx =>
          rw [hb] at h
          cases hr : buildAllTxsFrom sign tx_type payer instructions nonce_ix blockhashes
              additional_fee additional_tip (index + 1) rest with
          | error e => rw [hr] at h; simp [Bind.bind, Except.bind] at h
          | ok txs2 =>
              rw [hr] at h
              simp only [Bind.bind, Except.bind] at h
              cases h
              simp [ih (index + 1) txs2 hr]

theorem buildAllTxsFrom_append (sign : SignFn) (tx_type : TransactionType) (payer : Nat)
    (instructions : List Instr) (nonce_ix : Option Instr) (blockhashes : List Nat)
    (additional_fee : Option PriorityFee) (additional_tip : Nat) :
    ∀ (l1 l2 : List SWQoSRuntime) (index : Nat),
      buildAllTxsFrom sign tx_type payer instructions nonce_ix blockhashes
          additional_fee additional_tip index (l1 ++ l2)
        = (do
            let a ← buildAllTxsFrom sign tx_type payer instructions nonce_ix blockhashes
              additional_fee additional_tip index l1
            let b ← buildAllTxsFrom sign tx_type payer instructions nonce_ix blockhashes
              additional_fee additional_tip (index + l1.length) l2
            Except.ok (a ++ b)) := by
  intro l1
  induction l1 with
  | nil =>
      intro l2 index
      simp only [List.nil_append, buildAllTxsFrom, List.length_nil, Nat.add_zero,
        Bind.bind, Except.bind]
      cases buildAllTxsFrom sign tx_type payer instructions nonce_ix blockhashes
          additional_fee additional_tip index l2 <;> rfl
  | cons sw rest ih =>
      intro l2 index
      simp only [List.cons_append, buildAllTxsFrom, List.length_cons, Bind.bind, Except.bind,
        List.append_eq]
      simp only [ih l2 (index + 1), Bind.bind, Except.bind]
      simp only [show index + 1 + rest.length = index + (rest.length + 1) from by omega]
      cases buildProviderTx sign tx_type payer instructions nonce_ix blockhashes
          additional_fee additional_tip index sw with
      | error e => rfl
      | ok tx =>
          cases buildAllTxsFrom sign tx_type payer instructions nonce_ix blockhashes
              additional_fee additional_tip (index + 1) rest with
          | error e => rfl
          | ok a =>
              cases buildAllTxsFrom sign tx_type payer instructions nonce_ix blockhashes
                  additional_fee additional_tip (index + (rest.length + 1)) l2 with
              | error e => rfl
              | ok b => simp

theorem buildProviderTx_tip_error (sign : SignFn) (tx_type : TransactionType) (payer : Nat)
    (instructions : List Instr) (nonce_ix : Option Instr) (blockhashes : List Nat)
    (additional_fee : Option PriorityFee) (additional_tip : Nat) (index : Nat)
    (sw : SWQoSRuntime) (e : TradingEndpointError)
    (h : get_tip_config sw tx_type additional_tip = .error e) :
    buildProviderTx sign tx_type payer instructions nonce_ix blockhashes
      additional_fee additional_tip index sw = .error e := by
  simp [buildProviderTx, h, Bind.bind, Except.bind]

theorem buildProviderTx_send_invariant (sign : SignFn) (tx_type : TransactionType)
    (payer : Nat) (instructions : List Instr) (nonce_ix : Option Instr)
    (blockhashes : List Nat) (additional_fee : Option PriorityFee) (additional_tip : Nat)
    (index : Nat) (sw : SWQoSRuntime) (r : Except String Unit) :
    buildProviderTx sign tx_type payer instructions nonce_ix blockhashes
        additional_fee additional_tip index { sw with sendResult := r }
      = buildProviderTx sign tx_type payer instructions nonce_ix blockhashes
        additional_fee additional_tip index sw := rfl

theorem buildAllTxsFrom_withSends (sign : SignFn) (tx_type : TransactionType) (payer : Nat)
    (instructions : List Instr) (nonce_ix : Option Instr) (blockhashes : List Nat)
    (additional_fee : Option PriorityFee) (additional_tip : Nat)
    (f : SWQoSRuntime → Except String Unit) :
    ∀ (providers : List SWQoSRuntime) (index : Nat),
      buildAllTxsFrom sign tx_type payer instructions nonce_ix blockhashes
          additional_fee additional_tip index (withSends f providers)
        = buildAllTxsFrom sign tx_type payer instructions nonce_ix blockhashes
          additional_fee additional_tip index providers := by
  intro providers
  induction providers with
  | nil => intro index; rfl
  | cons sw rest ih =>
      intro index
      simp only [withSends, List.map_cons, buildAllTxsFrom]
      rw [buildProviderTx_send_invariant]
      have := ih (index + 1)
      simp only [withSends] at this
      rw [this]

theorem buildAllTxsFrom_error_of_failing_member (sign : SignFn) (tx_type : TransactionType)
    (payer : Nat) (instructions : List Instr) (nonce_ix : Option Instr)
    (blockhashes : List Nat) (additional_fee : Option PriorityFee) (additional_tip : Nat)
    (sw : SWQoSRuntime) (e : TradingEndpointError)
    (hfail : get_tip_config sw tx_type additional_tip = .error e) :
    ∀ (ps1 ps2 : List SWQoSRuntime) (index : Nat),
      ∃ e2, buildAllTxsFrom sign tx_type payer instructions nonce_ix blockhashes
        additional_fee additional_tip index (ps1 ++ sw :: ps2) = .error e2 := by
  intro ps1
  induction ps1 with
  | nil =>
      intro ps2 index
      refine ⟨e, ?_⟩
      simp only [List.nil_append, buildAllTxsFrom]
      rw [buildProviderTx_tip_error sign tx_type payer instructions nonce_ix blockhashes
        additional_fee additional_tip index sw e hfail]
      rfl
  | cons x rest ih =>
      intro ps2 index
      simp only [List.cons_append, buildAllTxsFrom]
      cases hb : buildProviderTx sign tx_type payer instructions nonce_ix blockhashes
          additional_fee additional_tip index x with
      | error ex => exact ⟨ex, rfl⟩
      | ok tx =>
          obtain ⟨e2, he2⟩ := ih ps2 (index + 1)
          refine ⟨e2, ?_⟩
          simp only [Bind.bind, Except.bind, List.append_eq]
          rw [he2]

theorem flatten_uniform_length {α : Type} (m : Nat) :
    ∀ (ls : List (List α)), (∀ x ∈ ls, x.length = m) → ls.flatten.length = ls.length * m := by
  intro ls
  induction ls with
  | nil => intro h; simp
  | cons x rest ih =>
      intro h
      simp only [List.flatten_cons, List.length_append, List.length_cons]
      rw [h x (by simp), ih (fun y hy => h y (by simp [hy]))]
      ring

theorem flatten_uniform_getD {α : Type} (m : Nat) (d : α) :
    ∀ (ls : List (List α)), (∀ x ∈ ls, x.length = m) →
      ∀ (i j : Nat) (hi : i < ls.length), j < m →
        ls.flatten.getD (i * m + j) d = (ls.get ⟨i, hi⟩).getD j d := by
  intro ls
  induction ls with
  | nil => intro hu i j hi; cases hi
  | cons x rest ih =>
      intro hu i j hi hj
      have hx : x.length = m := hu x (by simp)
      match i with
      | 0 =>
          simp only [List.flatten_cons, List.get]
          rw [Nat.zero_mul, Nat.zero_add]
          exact List.getD_append x rest.flatten d j (by omega)
      | i + 1 =>
          have harith : (i + 1) * m + j = x.length + (i * m + j) := by rw [hx]; ring
          simp only [List.flatten_cons, List.get]
          rw [harith, List.getD_append_right x rest.flatten d _ (by omega),
            Nat.add_sub_cancel_left]
          exact ih (fun y hy => hu y (by simp [hy])) i j (by simpa using hi) hj

theorem batchProviderTxs_ok_shape (sign : SignFn) (tx_type : TransactionType)
    (items : List BatchTxItem) (blockhash : Nat) (custom_fee : Option PriorityFee)
    (custom_tip : Nat) (sw : SWQoSRuntime) (txs : List Tx)
    (h : batchProviderTxs sign tx_type items blockhash custom_fee custom_tip sw = .ok txs) :
    ∃ tipc, get_tip_config sw tx_type custom_tip = .ok tipc ∧
      txs = items.map (fun item =>
        build_transaction sign item.payer
          (build_fee_instructions sw tx_type custom_fee
            ++ optionalIx (build_tip_instruction item.payer tipc) ++ item.instructions)
          blockhash) := by
  unfold batchProviderTxs at h
  cases ht : get_tip_config sw tx_type custom_tip with
  | error e => rw [ht] at h; simp [Bind.bind, Except.bind] at h
  | ok tipc =>
      rw [ht] at h
      simp only [Bind.bind, Except.bind] at h
      cases h
      exact ⟨tipc, rfl, rfl⟩

theorem batchProviderTxs_send_invariant (sign : SignFn) (tx_type : TransactionType)
    (items : List BatchTxItem) (blockhash : Nat) (custom_fee : Option PriorityFee)
    (custom_tip : Nat) (sw : SWQoSRuntime) (r : Except String Unit) :
    batchProviderTxs sign tx_type items blockhash custom_fee custom_tip
        { sw with sendBatchResult := r }
      = batchProviderTxs sign tx_type items blockhash custom_fee custom_tip sw := rfl

/-! ## Claims -/

/-- C2 (code bug): in `batch_sell` the `SwapInfo` handed to the venue
sell builder carries the computed SOL output in its `token_amount` leg
(`token_amount: sol_amount` in the source, `dex_traits.rs` line 252)
instead of the item's token amount; at reserves `(sol = 1000, token =
500)`, an item selling 100 tokens with 5% slippage yields `SwapInfo
{token_amount := 166, sol_amount := 158}` where the single-item flow
`sell_immediately` would pass `{token_amount := 100, sol_amount :=
158}`. -/
theorem c2_batch_sell_swapinfo_token_leg :
    batchSellRun 500 (1000, 500) [{ payer := 7, token_amount := 100 }]
      = [{ token_amount := 166, sol_amount := 158 }] ∧
    amm_sell_get_sol_out 1000 500 100 = 166 ∧
    (166 : Nat) ≠ 100 ∧
    sell_immediately_swapinfo 100 158 = { token_amount := 100, sol_amount := 158 } := by
  decide

/-- C3 (amended): in `batch_buy` each item is priced against the running
local reserve copy which is then updated by `pool_sol += item.sol_amount;
pool_token -= bought` before the next item; after all items the running
`pool_token` equals the initial token reserves minus the sum of per-item
bought amounts (which never exceeds the initial reserves), and
`pool_token` strictly decreases on an item whose computed token output is
positive.  (An item with `sol_amount > 0` can buy zero tokens under
integer floor division, leaving `pool_token` unchanged — see the
counterexample — so positivity of the output, not of `sol_amount`, is
the correct strictness condition.) -/
theorem c3_batch_buy_running_reserves (bps : Nat) (st : Nat × Nat) (item : BatchBuyParam)
    (items : List BatchBuyParam)
    (h : 0 < amm_buy_get_token_out st.1 st.2 item.sol_amount) :
    (batchBuyRun bps st items).2.2.2 = st.2 - ((batchBuyRun bps st items).2.1).sum ∧
    ((batchBuyRun bps st items).2.1).sum ≤ st.2 ∧
    batchBuyRun bps st (item :: items)
      = (({ token_amount := amm_buy_get_token_out st.1 st.2 item.sol_amount,
            sol_amount := calculate_with_slippage_buy item.sol_amount bps } : SwapInfo)
          :: (batchBuyRun bps (st.1 + item.sol_amount,
                st.2 - amm_buy_get_token_out st.1 st.2 item.sol_amount) items).1,
         amm_buy_get_token_out st.1 st.2 item.sol_amount
          :: (batchBuyRun bps (st.1 + item.sol_amount,
                st.2 - amm_buy_get_token_out st.1 st.2 item.sol_amount) items).2.1,
         (batchBuyRun bps (st.1 + item.sol_amount,
                st.2 - amm_buy_get_token_out st.1 st.2 item.sol_amount) items).2.2) ∧
    (batchBuyStep bps st item).2.2.2 < st.2 := by
  have hinv := batchBuyRun_token_invariant bps items st
  have hb := amm_buy_le_token_reserves st.1 st.2 item.sol_amount
  refine ⟨hinv.1, hinv.2, by simp [batchBuyRun, batchBuyStep], ?_⟩
  simp only [batchBuyStep]
  omega

/-- C3 witness: at reserves `(30, 1073)` a 10-lamport buy outputs 268
tokens, and the loop invariants hold on the singleton batch. -/
theorem c3_batch_buy_running_reserves_witness :
    0 < amm_buy_get_token_out 30 1073 10 ∧
    ((batchBuyRun 0 (30, 1073) ([] : List BatchBuyParam)).2.2.2
        = 1073 - ((batchBuyRun 0 (30, 1073) ([] : List BatchBuyParam)).2.1).sum ∧
      ((batchBuyRun 0 (30, 1073) ([] : List BatchBuyParam)).2.1).sum ≤ 1073 ∧
      batchBuyRun 0 (30, 1073) [{ payer := 0, sol_amount := 10 }]
        = (({ token_amount := amm_buy_get_token_out 30 1073 10,
              sol_amount := calculate_with_slippage_buy 10 0 } : SwapInfo)
            :: (batchBuyRun 0 (30 + 10, 1073 - amm_buy_get_token_out 30 1073 10)
                  ([] : List BatchBuyParam)).1,
           amm_buy_get_token_out 30 1073 10
            :: (batchBuyRun 0 (30 + 10, 1073 - amm_buy_get_token_out 30 1073 10)
                  ([] : List BatchBuyParam)).2.1,
           (batchBuyRun 0 (30 + 10, 1073 - amm_buy_get_token_out 30 1073 10)
                  ([] : List BatchBuyParam)).2.2) ∧
      (batchBuyStep 0 (30, 1073) { payer := 0, sol_amount := 10 }).2.2.2 < 1073) :=
  ⟨by decide,
    c3_batch_buy_running_reserves 0 (30, 1073) { payer := 0, sol_amount := 10 } [] (by decide)⟩

/-- C3 counterexample: an item with `sol_amount = 1 > 0` against reserves
`(pool_sol = 10, pool_token = 1)` buys zero tokens (`1 * 1 / 11 = 0`
under floor division), so the running `pool_token` does not strictly
decrease on it. -/
theorem c3_strict_decrease_counterexample :
    batchBuyRun 0 (10, 1) [{ payer := 0, sol_amount := 1 }]
      = ([{ token_amount := 0, sol_amount := 1 }], [0], (11, 1)) ∧
    (0 : Nat) < 1 ∧
    ¬ ((batchBuyRun 0 (10, 1) [{ payer := 0, sol_amount := 1 }]).2.2.2 < 1) := by
  decide

/-- C4: for every provider configuration, the priority fee resolves to
`buy_fee` for Buy and Create and to `sell_fee.or(buy_fee)` for Sell, and
the default tip resolves by the identical rule; in particular Sell with
`buy_fee = some F, sell_fee = none` resolves to `F`, and with both set
resolves to its own value. -/
theorem c4_fee_and_tip_resolution (sw : SWQoSRuntime) (F G : PriorityFee) (tF tG : Nat) :
    get_fee_config sw .Buy none = sw.config.buy_fee ∧
    get_fee_config sw .Create none = sw.config.buy_fee ∧
    get_fee_config sw .Sell none = (sw.config.sell_fee <|> sw.config.buy_fee) ∧
    get_fee_config { sw with config := { sw.config with buy_fee := some F, sell_fee := none } }
        .Sell none = some F ∧
    get_fee_config { sw with config := { sw.config with buy_fee := some F, sell_fee := some G } }
        .Sell none = some G ∧
    get_default_tip_for_tx_type { sw with config := { sw.config with buy_tip := some tF } }
        .Buy = .ok tF ∧
    get_default_tip_for_tx_type { sw with config := { sw.config with buy_tip := some tF } }
        .Create = .ok tF ∧
    get_default_tip_for_tx_type
        { sw with config := { sw.config with buy_tip := some tF, sell_tip := none } }
        .Sell = .ok tF ∧
    get_default_tip_for_tx_type
        { sw with config := { sw.config with buy_tip := some tF, sell_tip := some tG } }
        .Sell = .ok tG := by
  refine ⟨?_, ?_, ?_, ?_, ?_, ?_, ?_, ?_, ?_⟩ <;>
    cases hb : sw.config.buy_fee <;> cases hs : sw.config.sell_fee <;>
      simp [get_fee_config, get_default_tip_for_tx_type, hb, hs]

/-- C6 counterexample: with a 5-address tip pool and concurrency degree
4, instantiation yields `ceil(5 / ceil(5/4)) = 3` runtime chunks, not
`min(degree, pool_size) = 4`: the chunk count is derived from the ceiling
chunk size, and need not equal `min(degree, pool_size)`. -/
theorem c6_chunk_count_counterexample :
    (instantiate_many_pools [0, 1, 2, 3, 4] 4).length = 3 ∧
    min 4 (List.length [0, 1, 2, 3, 4]) = 4 ∧ (3 : Nat) ≠ 4 ∧
    instantiate_many_pools [0, 1, 2, 3, 4] 4 = [[0, 1], [2, 3], [4]] := by
  decide

/-- C6 (amended): instantiating a provider's runtimes over a non-empty
tip pool splits the pool into contiguous chunks of size
`ceil(pool_size / min(max(degree,1), pool_size))`, pairwise disjoint and
covering the pool exactly once (their concatenation is the pool, every
chunk non-empty and at most chunk-size long); the number of chunks is
`ceil(pool_size / chunk_size)`, which can be strictly less than
`min(degree, pool_size)` (see the counterexample); the degree-4,
8-address scenario does yield 4 runtime chunks of 2 addresses each. -/
theorem c6_tip_pool_chunking (pool : List Nat) (degree t size : Nat)
    (hpool : pool ≠ [])
    (ht : t = max (min (max degree 1) pool.length) 1)
    (hsize : size = (pool.length + t - 1) / t) :
    instantiate_many_pools pool degree = chunksOf size pool ∧
    (instantiate_many_pools pool degree).flatten = pool ∧
    (instantiate_many_pools pool degree).length = (pool.length + size - 1) / size ∧
    (∀ c ∈ instantiate_many_pools pool degree, c ≠ [] ∧ c.length ≤ size) ∧
    instantiate_many_pools [0, 1, 2, 3, 4, 5, 6, 7] 4
      = [[0, 1], [2, 3], [4, 5], [6, 7]] := by
  subst ht
  subst hsize
  have hn : 0 < pool.length := List.length_pos.mpr hpool
  have ht1 : 0 < max (min (max degree 1) pool.length) 1 := Nat.lt_of_lt_of_le Nat.zero_lt_one (Nat.le_max_right _ _)
  have hsz : (pool.length + max (min (max degree 1) pool.length) 1 - 1)
      / max (min (max degree 1) pool.length) 1 ≠ 0 := by
    have := (Nat.one_le_div_iff ht1).mpr
      (by omega : max (min (max degree 1) pool.length) 1
        ≤ pool.length + max (min (max degree 1) pool.length) 1 - 1)
    omega
  refine ⟨rfl, ?_, ?_, ?_, by decide⟩
  · exact chunksOfFuel_flatten _ hsz pool.length pool (Nat.le_refl _)
  · exact chunksOfFuel_length _ hsz pool.length pool (Nat.le_refl _)
  · exact chunksOfFuel_sizes _ hsz pool.length pool (Nat.le_refl _)

/-- C6 witness: the 8-address pool with degree 4 satisfies the chunking
theorem with chunk size 2. -/
theorem c6_tip_pool_chunking_witness :
    ([0, 1, 2, 3, 4, 5, 6, 7] : List Nat) ≠ [] ∧
    (4 : Nat) = max (min (max 4 1) (List.length [0, 1, 2, 3, 4, 5, 6, 7])) 1 ∧
    (2 : Nat) = (List.length [0, 1, 2, 3, 4, 5, 6, 7] + 4 - 1) / 4 ∧
    (instantiate_many_pools [0, 1, 2, 3, 4, 5, 6, 7] 4
        = chunksOf 2 [0, 1, 2, 3, 4, 5, 6, 7] ∧
      (instantiate_many_pools [0, 1, 2, 3, 4, 5, 6, 7] 4).flatten
        = [0, 1, 2, 3, 4, 5, 6, 7] ∧
      (instantiate_many_pools [0, 1, 2, 3, 4, 5, 6, 7] 4).length
        = (List.length [0, 1, 2, 3, 4, 5, 6, 7] + 2 - 1) / 2 ∧
      (∀ c ∈ instantiate_many_pools [0, 1, 2, 3, 4, 5, 6, 7] 4, c ≠ [] ∧ c.length ≤ 2) ∧
      instantiate_many_pools [0, 1, 2, 3, 4, 5, 6, 7] 4
        = [[0, 1], [2, 3], [4, 5], [6, 7]]) :=
  ⟨by decide, by decide, by decide,
    c6_tip_pool_chunking [0, 1, 2, 3, 4, 5, 6, 7] 4 4 2
      (by decide) (by decide) (by decide)⟩

/-- C7 counterexample: when one of the two unit prices is zero, the
combined unit price equals the sum of the two prices, so "the combined
price is never the sum of the two prices" fails as a universal
statement. -/
theorem c7_price_sum_counterexample :
    (PriorityFee.add { unit_limit := 1, unit_price := 0 } { unit_limit := 2, unit_price := 5 }).unit_price
      = ({ unit_limit := 1, unit_price := 0 } : PriorityFee).unit_price
        + ({ unit_limit := 2, unit_price := 5 } : PriorityFee).unit_price := by
  decide

/-- C7 (amended): combining two `PriorityFee`s saturates `unit_limit` by
addition and takes the maximum `unit_price` for all pairs of inputs; the
combined price is strictly below the sum of the two prices whenever both
are positive (it equals the sum exactly when one of them is zero). -/
theorem c7_priority_fee_add (a b : PriorityFee) :
    (PriorityFee.add a b).unit_limit = min (a.unit_limit + b.unit_limit) u32Max ∧
    (PriorityFee.add a b).unit_price = max a.unit_price b.unit_price ∧
    (0 < a.unit_price → 0 < b.unit_price →
      (PriorityFee.add a b).unit_price < a.unit_price + b.unit_price) := by
  refine ⟨rfl, rfl, fun ha hb => ?_⟩
  simp only [PriorityFee.add]
  rcases Nat.le_total a.unit_price b.unit_price with h | h <;> simp [Nat.max_def, h] <;> omega

/-- C7 witness: concrete combination with both prices positive. -/
theorem c7_priority_fee_add_witness :
    0 < (2 : Nat) ∧ 0 < (4 : Nat) ∧
    (PriorityFee.add { unit_limit := 1, unit_price := 2 }
        { unit_limit := 3, unit_price := 4 }).unit_price < 2 + 4 :=
  ⟨by decide, by decide,
    (c7_priority_fee_add { unit_limit := 1, unit_price := 2 }
        { unit_limit := 3, unit_price := 4 }).2.2 (by decide) (by decide)⟩

/-- C9: every Pumpfun operation requiring the lazily-initialized global
state fails with the "Pumpfun not initialized" error while the write-once
cell is empty — both the buy and the sell instruction builders — and
`initialize` stores the fetched snapshot exactly once, rejecting a second
initialization. -/
theorem c9_pumpfun_requires_initialization (env : PumpfunEnv)
    (payer mint token_account : Nat) (creator_vault custom_ata : Option Nat)
    (s : SwapInfo) (ga g : GlobalAccount) :
    pumpfun_build_buy_instruction env none payer mint creator_vault token_account s
      = .error (.CustomError "Pumpfun not initialized") ∧
    pumpfun_build_sell_instruction env none payer mint custom_ata creator_vault s
      = .error (.CustomError "Pumpfun not initialized") ∧
    pumpfunInitialize none (.ok g) = .ok (some g) ∧
    pumpfunInitialize (some ga) (.ok g) = .error (.CustomError "OnceCell already set") ∧
    pumpfunInitialized (some ga) = .ok () :=
  ⟨rfl, rfl, rfl, rfl, rfl⟩

/-- Empty fee/tip configuration used by the broadcast examples. -/
def emptyConfig : SWQoSConfig :=
  { threads := 1, buy_tip := none, buy_fee := none, sell_tip := none, sell_fee := none }

/-- A concrete signing function for the broadcast examples: the payer
plus the blockhash. -/
def exSign : SignFn := fun p _ bh => p + bh

/-- Three tip-less providers of which the second one's submission timed
out. -/
def c1Providers : List SWQoSRuntime :=
  [{ config := emptyConfig, tipAccount := none, name := "p1",
     sendResult := .ok (), sendBatchResult := .ok () },
   { config := emptyConfig, tipAccount := none, name := "p2",
     sendResult := .error "timeout", sendBatchResult := .ok () },
   { config := emptyConfig, tipAccount := none, name := "p3",
     sendResult := .ok (), sendBatchResult := .ok () }]

/-- C1 counterexample: in a fan-out to 3 providers where provider 2
times out, all three signatures are computed during the build phase (the
transactions below each carry signature 47), yet the call returns only
the aggregate error — an `Err` value carrying no signatures — so the
claimed "signatures for all N providers are still returned together with
the error" is false. -/
theorem c1_signatures_dropped_counterexample :
    buildAllTxs exSign .Buy 5 [] none [42] none 0 c1Providers
      = .ok [{ payer := 5, instructions := [], blockhash := 42, signatures := [47] },
             { payer := 5, instructions := [], blockhash := 42, signatures := [47] },
             { payer := 5, instructions := [], blockhash := 42, signatures := [47] }] ∧
    build_and_broadcast_tx exSign .Buy 5 [] none [42] none 0 c1Providers
      = .error (.CustomError "Errors occurred while sending transactions: [timeout]") := by
  decide

/-- C1 (amended): once the per-provider build phase has produced the N
signed transactions, every provider's submission outcome contributes to
the collected error list (no short-circuit); if no provider failed the
call returns all N signatures (one per provider, read off the built
transactions), and if one or more failed the call returns a single
aggregate `CustomError` whose message enumerates every failing
provider's cause in provider order — but it returns only that error: the
computed signatures are dropped, not returned alongside it. -/
theorem c1_broadcast_error_aggregation (sign : SignFn) (tx_type : TransactionType)
    (payer : Nat) (instructions : List Instr) (nonce_ix : Option Instr)
    (blockhashes : List Nat) (additional_fee : Option PriorityFee) (additional_tip : Nat)
    (providers : List SWQoSRuntime) (txs : List Tx)
    (hbuild : buildAllTxs sign tx_type payer instructions nonce_ix blockhashes
      additional_fee additional_tip providers = .ok txs) :
    txs.length = providers.length ∧
    (failingErrors (providers.map (fun sw => sw.sendResult)) = [] →
      build_and_broadcast_tx sign tx_type payer instructions nonce_ix blockhashes
          additional_fee additional_tip providers
        = .ok (txs.map (fun tx => tx.signatures.getD 0 0))) ∧
    (failingErrors (providers.map (fun sw => sw.sendResult)) ≠ [] →
      build_and_broadcast_tx sign tx_type payer instructions nonce_ix blockhashes
          additional_fee additional_tip providers
        = .error (.CustomError ("Errors occurred while sending transactions: "
            ++ formatErrorList (failingErrors (providers.map (fun sw => sw.sendResult)))))) := by
  refine ⟨buildAllTxsFrom_ok_length sign tx_type payer instructions nonce_ix blockhashes
    additional_fee additional_tip providers 0 txs hbuild, ?_, ?_⟩
  · intro h
    simp only [build_and_broadcast_tx, hbuild, Bind.bind, Except.bind, h]
    rfl
  · intro h
    simp only [build_and_broadcast_tx, hbuild, Bind.bind, Except.bind]
    rw [if_neg (by simpa [List.isEmpty_iff] using h)]

/-- Two all-successful tip-less providers. -/
def c1OkProviders : List SWQoSRuntime :=
  [{ config := emptyConfig, tipAccount := none, name := "q1",
     sendResult := .ok (), sendBatchResult := .ok () },
   { config := emptyConfig, tipAccount := none, name := "q2",
     sendResult := .ok (), sendBatchResult := .ok () }]

/-- C1 witness: two successful providers — the build succeeds and the
call returns both signatures. -/
theorem c1_broadcast_error_aggregation_witness :
    buildAllTxs exSign .Buy 5 [] none [42] none 0 c1OkProviders
      = .ok [{ payer := 5, instructions := [], blockhash := 42, signatures := [47] },
             { payer := 5, instructions := [], blockhash := 42, signatures := [47] }] ∧
    (([{ payer := 5, instructions := [], blockhash := 42, signatures := [47] },
       { payer := 5, instructions := [], blockhash := 42, signatures := [47] }] : List Tx).length
        = c1OkProviders.length ∧
     (failingErrors (c1OkProviders.map (fun sw => sw.sendResult)) = [] →
       build_and_broadcast_tx exSign .Buy 5 [] none [42] none 0 c1OkProviders
         = .ok (([{ payer := 5, instructions := [], blockhash := 42, signatures := [47] },
                  { payer := 5, instructions := [], blockhash := 42, signatures := [47] }] : List Tx).map
             (fun tx => tx.signatures.getD 0 0))) ∧
     (failingErrors (c1OkProviders.map (fun sw => sw.sendResult)) ≠ [] →
       build_and_broadcast_tx exSign .Buy 5 [] none [42] none 0 c1OkProviders
         = .error (.CustomError ("Errors occurred while sending transactions: "
             ++ formatErrorList (failingErrors (c1OkProviders.map (fun sw => sw.sendResult))))))) :=
  ⟨by decide,
    c1_broadcast_error_aggregation exSign .Buy 5 [] none [42] none 0 c1OkProviders
      [{ payer := 5, instructions := [], blockhash := 42, signatures := [47] },
       { payer := 5, instructions := [], blockhash := 42, signatures := [47] }] (by decide)⟩

/-- C5: per-provider tip policy of the broadcast path.  (1) A provider
exposing no tip account resolves to `Ok(None)` and its transaction is
built without any tip instruction (nonce, fee and caller instructions
only).  (2) The call builds each provider's transaction independently —
over `ps1 ++ sw :: ps2` the build factors into the builds of `ps1`, of
`sw` at its own index, and of `ps2`, so changing one provider leaves the
others' transactions unaffected.  (3) A provider exposing a tip account
for which no tip amount resolves makes the whole call fail with that
provider's configuration error, for every possible assignment of
submission outcomes — i.e. before any submission matters (fail-closed:
nothing is ever submitted untipped to a provider that expects tips). -/
theorem c5_tip_account_policy (sign : SignFn) (tx_type : TransactionType) (payer : Nat)
    (instructions : List Instr) (nonce_ix : Option Instr) (blockhashes : List Nat)
    (additional_fee : Option PriorityFee) (additional_tip : Nat)
    (ps1 ps2 : List SWQoSRuntime) (sw : SWQoSRuntime) :
    (sw.tipAccount = none →
      get_tip_config sw tx_type additional_tip = .ok none ∧
      buildProviderTx sign tx_type payer instructions nonce_ix blockhashes additional_fee
          additional_tip ps1.length sw
        = .ok (build_transaction sign payer
            (optionalIx nonce_ix ++ build_fee_instructions sw tx_type additional_fee
              ++ instructions)
            (blockhashes.getD (ps1.length % blockhashes.length) 0))) ∧
    buildAllTxs sign tx_type payer instructions nonce_ix blockhashes additional_fee
        additional_tip (ps1 ++ sw :: ps2)
      = (do
          let a ← buildAllTxsFrom sign tx_type payer instructions nonce_ix blockhashes
            additional_fee additional_tip 0 ps1
          let tx ← buildProviderTx sign tx_type payer instructions nonce_ix blockhashes
            additional_fee additional_tip ps1.length sw
          let b ← buildAllTxsFrom sign tx_type payer instructions nonce_ix blockhashes
            additional_fee additional_tip (ps1.length + 1) ps2
          Except.ok (a ++ tx :: b)) ∧
    (∀ (a : Nat) (e : TradingEndpointError), sw.tipAccount = some a →
      get_default_tip_for_tx_type sw tx_type = .error e →
      get_tip_config sw tx_type additional_tip = .error e ∧
      ∃ e2, ∀ (f : SWQoSRuntime → Except String Unit),
        build_and_broadcast_tx sign tx_type payer instructions nonce_ix blockhashes
          additional_fee additional_tip (withSends f (ps1 ++ sw :: ps2)) = .error e2) := by
  refine ⟨?_, ?_, ?_⟩
  · intro hta
    have h1 : get_tip_config sw tx_type additional_tip = .ok none := by
      simp [get_tip_config, hta]
    refine ⟨h1, ?_⟩
    simp [buildProviderTx, h1, Bind.bind, Except.bind, build_tip_instruction, optionalIx]
  · rw [buildAllTxs, buildAllTxsFrom_append sign tx_type payer instructions nonce_ix
      blockhashes additional_fee additional_tip ps1 (sw :: ps2) 0]
    simp only [Nat.zero_add, buildAllTxsFrom, Bind.bind, Except.bind]
    cases buildAllTxsFrom sign tx_type payer instructions nonce_ix blockhashes
        additional_fee additional_tip 0 ps1 with
    | error e => rfl
    | ok a =>
        cases buildProviderTx sign tx_type payer instructions nonce_ix blockhashes
            additional_fee additional_tip ps1.length sw with
        | error e => rfl
        | ok tx =>
            cases buildAllTxsFrom sign tx_type payer instructions nonce_ix blockhashes
                additional_fee additional_tip (ps1.length + 1) ps2 with
            | error e => rfl
            | ok b => rfl
  · intro a e hta hte
    have h1 : get_tip_config sw tx_type additional_tip = .error e := by
      simp [get_tip_config, hta, hte, Bind.bind, Except.bind]
    refine ⟨h1, ?_⟩
    obtain ⟨e2, he2⟩ := buildAllTxsFrom_error_of_failing_member sign tx_type payer
      instructions nonce_ix blockhashes additional_fee additional_tip sw e h1 ps1 ps2 0
    refine ⟨e2, fun f => ?_⟩
    simp only [build_and_broadcast_tx, buildAllTxs]
    rw [buildAllTxsFrom_withSends, he2]
    rfl

/-- Tip-less provider used by the C5 witness. -/
def c5NoTip : SWQoSRuntime :=
  { config := emptyConfig, tipAccount := none, name := "r1",
    sendResult := .ok (), sendBatchResult := .ok () }

/-- Provider exposing tip account 3 but with no tip amount configured,
used by the C5 witness. -/
def c5TipNoAmount : SWQoSRuntime :=
  { config := emptyConfig, tipAccount := some 3, name := "r2",
    sendResult := .ok (), sendBatchResult := .ok () }

/-- C5 witness: a tip-less provider gets a tip-free transaction, and a
tip-account provider without a resolvable tip amount makes the call fail
with its configuration error whatever the submission outcomes. -/
theorem c5_tip_account_policy_witness :
    c5NoTip.tipAccount = none ∧
    (get_tip_config c5NoTip .Sell 0 = .ok none ∧
      buildProviderTx exSign .Sell 9 [] none [7] none 0 0 c5NoTip
        = .ok (build_transaction exSign 9
            (optionalIx none ++ build_fee_instructions c5NoTip .Sell none ++ [])
            (([7] : List Nat).getD (0 % ([7] : List Nat).length) 0))) ∧
    c5TipNoAmount.tipAccount = some 3 ∧
    get_default_tip_for_tx_type c5TipNoAmount .Sell
      = .error (.TransactionError "No tip configured for transaction type in SWQoS: r2") ∧
    (get_tip_config c5TipNoAmount .Sell 0
        = .error (.TransactionError "No tip configured for transaction type in SWQoS: r2") ∧
      ∃ e2, ∀ (f : SWQoSRuntime → Except String Unit),
        build_and_broadcast_tx exSign .Sell 9 [] none [7] none 0
          (withSends f ([c5NoTip] ++ c5TipNoAmount :: [])) = .error e2) :=
  ⟨by decide,
   (c5_tip_account_policy exSign .Sell 9 [] none [7] none 0 [] [c5TipNoAmount] c5NoTip).1
     (by decide),
   by decide,
   by decide,
   (c5_tip_account_policy exSign .Sell 9 [] none [7] none 0 [c5NoTip] [] c5TipNoAmount).2.2
     3 (.TransactionError "No tip configured for transaction type in SWQoS: r2")
     (by decide) (by decide)⟩

/-- C10: on success, `build_and_broadcast_batch_txs` returns exactly
(number of provider runtimes) × (number of batch items) signatures,
grouped provider by provider in configuration order with each provider's
block in item order; each signature is read from the first signature slot
of the corresponding signed transaction; and the build output (hence
every signature) is independent of the providers' submission outcomes —
it is computed before any network submission. -/
theorem c10_batch_broadcast_signatures (sign : SignFn) (tx_type : TransactionType)
    (items : List BatchTxItem) (blockhash : Nat) (custom_fee : Option PriorityFee)
    (custom_tip : Nat) (providers : List SWQoSRuntime) (txss : List (List Tx))
    (hb : mapME (batchProviderTxs sign tx_type items blockhash custom_fee custom_tip)
      providers = .ok txss)
    (hok : failingErrors (providers.map (fun sw => sw.sendBatchResult)) = []) :
    build_and_broadcast_batch_txs sign tx_type items blockhash custom_fee custom_tip providers
      = .ok ((txss.map (fun txs => txs.map (fun tx => tx.signatures.getD 0 0))).flatten) ∧
    txss.length = providers.length ∧
    (∀ (i : Nat) (hi : i < txss.length) (hi2 : i < providers.length),
      batchProviderTxs sign tx_type items blockhash custom_fee custom_tip
          (providers.get ⟨i, hi2⟩) = .ok (txss.get ⟨i, hi⟩) ∧
      (txss.get ⟨i, hi⟩).length = items.length) ∧
    ((txss.map (fun txs => txs.map (fun tx => tx.signatures.getD 0 0))).flatten).length
      = providers.length * items.length ∧
    (∀ (i j : Nat) (hi : i < txss.length), j < items.length →
      ((txss.map (fun txs => txs.map (fun tx => tx.signatures.getD 0 0))).flatten).getD
          (i * items.length + j) 0
        = ((txss.get ⟨i, hi⟩).getD j (build_transaction sign 0 [] 0)).signatures.getD 0 0) ∧
    (∀ (f : SWQoSRuntime → Except String Unit),
      mapME (batchProviderTxs sign tx_type items blockhash custom_fee custom_tip)
        (withBatchSends f providers) = .ok txss) := by
  have hlen : txss.length = providers.length := mapME_ok_length _ providers txss hb
  have hshape : ∀ (i : Nat) (hi : i < txss.length) (hi2 : i < providers.length),
      batchProviderTxs sign tx_type items blockhash custom_fee custom_tip
          (providers.get ⟨i, hi2⟩) = .ok (txss.get ⟨i, hi⟩) ∧
      (txss.get ⟨i, hi⟩).length = items.length := by
    intro i hi hi2
    have h1 := mapME_ok_get _ providers txss hb i hi2 hi
    refine ⟨h1, ?_⟩
    obtain ⟨tipc, _, hmap⟩ := batchProviderTxs_ok_shape sign tx_type items blockhash
      custom_fee custom_tip (providers.get ⟨i, hi2⟩) (txss.get ⟨i, hi⟩) h1
    rw [hmap]
    simp
  have huni : ∀ x ∈ txss.map (fun txs => txs.map (fun tx => tx.signatures.getD 0 0)),
      x.length = items.length := by
    intro x hx
    obtain ⟨txs, htxs, rfl⟩ := List.mem_map.mp hx
    obtain ⟨⟨i, hi⟩, rfl⟩ := List.mem_iff_get.mp htxs
    have hi2 : i < providers.length := by omega
    simpa using (hshape i hi hi2).2
  refine ⟨?_, hlen, hshape, ?_, ?_, ?_⟩
  · simp only [build_and_broadcast_batch_txs, hb, Bind.bind, Except.bind, hok]
    rfl
  · rw [flatten_uniform_length items.length _ huni]
    simp [hlen]
  · intro i j hi hj
    have hi2 : i < providers.length := by omega
    have hi3 : i < (txss.map (fun txs => txs.map (fun tx => tx.signatures.getD 0 0))).length := by
      simpa using hi
    rw [flatten_uniform_getD items.length 0 _ huni i j hi3 hj]
    have hlenI : (txss.get ⟨i, hi⟩).length = items.length := (hshape i hi hi2).2
    have hj1 : j < (txss.get ⟨i, hi⟩).length := by omega
    have hmapget : (txss.map (fun txs => txs.map (fun tx => tx.signatures.getD 0 0))).get
        ⟨i, hi3⟩ = (txss.get ⟨i, hi⟩).map (fun tx => tx.signatures.getD 0 0) := by
      simp [List.get_eq_getElem, List.getElem_map]
    rw [hmapget,
      List.getD_eq_getElem _ _ (by simpa using hj1),
      List.getD_eq_getElem _ _ hj1,
      List.getElem_map]
  · intro f
    have := mapME_invariant
      (batchProviderTxs sign tx_type items blockhash custom_fee custom_tip)
      (fun sw => { sw with sendBatchResult := f sw })
      (fun sw => batchProviderTxs_send_invariant sign tx_type items blockhash custom_fee
        custom_tip sw (f sw))
      providers
    rw [withBatchSends, this, hb]

/-- Single all-successful tip-less provider used by the C10 witness. -/
def c10Provider : SWQoSRuntime :=
  { config := emptyConfig, tipAccount := none, name := "b1",
    sendResult := .ok (), sendBatchResult := .ok () }

/-- C10 witness: one provider, two batch items — the call returns the
1 × 2 signatures in provider-major, item order, read off the built
transactions. -/
theorem c10_batch_broadcast_signatures_witness :
    mapME (batchProviderTxs exSign .Buy
        [{ payer := 1, instructions := [] }, { payer := 2, instructions := [] }] 11 none 0)
        [c10Provider]
      = .ok [[{ payer := 1, instructions := [], blockhash := 11, signatures := [12] },
              { payer := 2, instructions := [], blockhash := 11, signatures := [13] }]] ∧
    failingErrors ([c10Provider].map (fun sw => sw.sendBatchResult)) = [] ∧
    (build_and_broadcast_batch_txs exSign .Buy
        [{ payer := 1, instructions := [] }, { payer := 2, instructions := [] }] 11 none 0
        [c10Provider]
      = .ok ((([[{ payer := 1, instructions := [], blockhash := 11, signatures := [12] },
                 { payer := 2, instructions := [], blockhash := 11, signatures := [13] }]] :
          List (List Tx)).map
            (fun txs => txs.map (fun tx => tx.signatures.getD 0 0))).flatten) ∧
      ((([[{ payer := 1, instructions := [], blockhash := 11, signatures := [12] },
           { payer := 2, instructions := [], blockhash := 11, signatures := [13] }]] :
          List (List Tx)).map
            (fun txs => txs.map (fun tx => tx.signatures.getD 0 0))).flatten).length
        = [c10Provider].length
          * ([{ payer := 1, instructions := [] },
              { payer := 2, instructions := [] }] : List BatchTxItem).length) :=
  have happ := c10_batch_broadcast_signatures exSign .Buy
    [{ payer := 1, instructions := [] }, { payer := 2, instructions := [] }] 11 none 0
    [c10Provider]
    [[{ payer := 1, instructions := [], blockhash := 11, signatures := [12] },
      { payer := 2, instructions := [], blockhash := 11, signatures := [13] }]]
    (by decide) (by decide)
  ⟨by decide, by decide, happ.1, happ.2.2.2.1⟩

end SolanaTradingSdk
